import Mathlib

/-!
Shallow embedding of the vault-ctrl-tool core (src/cmd/vault.go): the
authentication-method resolution chain (authenticateToVault), the
lease-renewal retry engine (renewSelf over the exponential-backoff retry
loop), best-effort revocation (revokeSelf), and the secret-fetch procedure
(readKVSecrets).  External collaborators (the Vault HTTP client, the
Kubernetes client, the lease registry file) are inputs: their responses are
fields of an environment record or response functions.  Fatal logging
(jww.FATAL.Fatalf, which terminates the process) is modelled as an error
outcome carrying the message; store read calls issued by the secret fetch
are recorded in an explicit trace so that claims about which calls happen
before a failure are statable.
-/

/-- Embedding of Go strings: a leading-segment test over the character
lists of two strings (the shape of strings.HasPrefix).  First argument is
the candidate leading segment, second the string. -/
def leadsWith : List Char → List Char → Bool
  | [], _ => true
  | _ :: _, [] => false
  | a :: as, b :: bs => a = b && leadsWith as bs

/-- Embedding of strings.Contains(s, sub): sub occurs as a contiguous
segment of s (the empty string occurs in every string). -/
def containsSub (needle : List Char) : List Char → Bool
  | [] => needle.isEmpty
  | c :: rest => leadsWith needle (c :: rest) || containsSub needle rest

def goStringsContains (s sub : String) : Bool :=
  containsSub sub.data s.data

def goStringsHasLeading (s sub : String) : Bool :=
  leadsWith sub.data s.data

/-- Split a character list on the path separator, as Go path cleaning does
implicitly while scanning. -/
def splitOnSlash : List Char → List Char → List String
  | [], cur => [String.mk cur.reverse]
  | c :: rest, cur =>
    if c = '/' then String.mk cur.reverse :: splitOnSlash rest []
    else splitOnSlash rest (c :: cur)

/-- Element processing of Go filepath.Clean: drop empty and dot elements,
resolve dot-dot against the accumulated output (dropping it at the root
when rooted, keeping it when relative). -/
def cleanParts (rooted : Bool) : List String → List String → List String
  | [], acc => acc.reverse
  | p :: rest, acc =>
    if p = "" || p = "." then cleanParts rooted rest acc
    else if p = ".." then
      match acc with
      | [] =>
        if rooted then cleanParts rooted rest []
        else cleanParts rooted rest [".."]
      | q :: tl =>
        if q = ".." then cleanParts rooted rest (".." :: q :: tl)
        else cleanParts rooted rest tl
    else cleanParts rooted rest (p :: acc)

/-- Embedding of Go filepath.Clean for slash-separated paths. -/
def goPathClean (p : String) : String :=
  if p = "" then "."
  else
    let rooted := goStringsHasLeading p "/"
    let parts := cleanParts rooted (splitOnSlash p.data []) []
    let joined := String.intercalate "/" parts
    if rooted then "/" ++ joined
    else if joined = "" then "." else joined

/-- Embedding of Go filepath.Join on two elements: drop empty elements,
join the rest with the separator and clean the result. -/
def goFilepathJoin (a b : String) : String :=
  let elems := ([a, b].filter (fun e => e ≠ ""))
  if elems.isEmpty then ""
  else goPathClean (String.intercalate "/" elems)

/-- Embedding of src/cmd/vault.go lines 247..253: the effective store path of a request,
used verbatim when it has a leading separator and otherwise joined under
the configured service secret path base (the serviceSecretPrefix flag). -/
def resolveSecretPath (base p : String) : String :=
  if goStringsHasLeading p "/" then p else goFilepathJoin base p

/-- Configuration entry for one secret (config.Secrets element). -/
structure SecretRequest where
  key : String
  path : String
  isMissingOk : Bool
deriving DecidableEq

/-- Outcome of one client.Logical().Read(path) call: transport error, nil
response (no error, no data), or a response payload (modelled opaquely as a
string). -/
inductive ReadResult
| err (e : String)
| missing
| found (s : String)
deriving DecidableEq

/-- Embedding of src/cmd/vault.go lines 241..278: the body of the readKVSecrets loop.
State: remaining requests, the accumulated key-to-secret mapping (an
association list built only by fresh-key insertion, so it coincides with
the Go map), and the trace of store read calls issued so far (paths, in
order).  Fatal logging is the error outcome; the lease enrollment of a
found secret is a registry side effect not otherwise observed here. -/
def readKVSecretsLoop (store : String → ReadResult) (base : String) :
    List SecretRequest → List (String × String) → List String →
    Except String (List (String × String)) × List String
  | [], acc, tr => (.ok acc, tr)
  | req :: rest, acc, tr =>
    let p := resolveSecretPath base req.path
    if (acc.lookup req.key).isSome then
      (.error ("Duplicate secret key " ++ req.key ++ "."), tr)
    else
      match store p with
      | .err e => (.error ("error fetching secret " ++ p ++ ": " ++ e), tr ++ [p])
      | .missing =>
        if req.isMissingOk then readKVSecretsLoop store base rest acc (tr ++ [p])
        else (.error "No response returned fetching secrets.", tr ++ [p])
      | .found s => readKVSecretsLoop store base rest (acc ++ [(req.key, s)]) (tr ++ [p])

/-- Embedding of src/cmd/vault.go line 237: readKVSecrets runs the loop from an empty
mapping and an empty call trace. -/
def readKVSecrets (store : String → ReadResult) (base : String)
    (reqs : List SecretRequest) :
    Except String (List (String × String)) × List String :=
  readKVSecretsLoop store base reqs [] []

/-- Embedding of src/cmd/vault.go line 23: the sentinel error surfaced on a permanent
renewal failure. -/
def ErrPermissionDenied : String := "permission denied"

/-- Embedding of src/cmd/vault.go lines 283..286: an error is a permission denial
exactly when its formatted string contains the substring Code: 403. -/
def checkPermissionDenied (e : String) : Bool :=
  goStringsContains e "Code: 403"

/-- One response of client.Auth().Token().RenewSelf inside the retry loop. -/
inductive RenewAttempt
| ok
| err (e : String)
deriving DecidableEq

/-- Result of backoff.Retry around the renewal operation: success, the
permanent-error escape (surfacing ErrPermissionDenied), giving up with the
last transient error once the elapsed budget is exceeded, or the model
artifact of the finite response trace running out. -/
inductive RetryOutcome
| success
| permanent (e : String)
| giveUp (e : String)
| pending
deriving DecidableEq

/-- The exponential-backoff interval step: multiplier 1.5 capped at the
60s default maximum interval (jitter abstracted to the mean). -/
def nextInterval (i : Nat) : Nat := min (i * 3 / 2) 60000

/-- Embedding of src/cmd/vault.go lines 42..58 with the backoff.Retry loop inlined:
each attempt either succeeds, is classified permanent by
checkPermissionDenied (backoff.Permanent short-circuits before any budget
check), or is transient, in which case the loop stops with that error when
the elapsed time exceeds the budget and otherwise sleeps the current
interval and retries.  Returns the outcome and the number of renewal
attempts consumed. -/
def retryLoop (maxElapsed : Nat) : List RenewAttempt → Nat → Nat →
    RetryOutcome × Nat
  | [], _, _ => (.pending, 0)
  | .ok :: _, _, _ => (.success, 1)
  | .err e :: rest, elapsed, interval =>
    if checkPermissionDenied e then (.permanent ErrPermissionDenied, 1)
    else if maxElapsed < elapsed then (.giveUp e, 1)
    else
      let r := retryLoop maxElapsed rest (elapsed + interval) (nextInterval interval)
      (r.1, r.2 + 1)

/-- Embedding of src/cmd/vault.go lines 40..61: renewSelf runs the retry loop with the
configured duration as the elapsed budget, zero elapsed time and the 500ms
initial interval (defaultRetryStrategy, lines 25..30). -/
def renewSelf (maxElapsed : Nat) (attempts : List RenewAttempt) :
    RetryOutcome × Nat :=
  retryLoop maxElapsed attempts 0 500

/-- Embedding of src/cmd/vault.go lines 32..38: revokeSelf issues the revoke call and
logs; the outcome type is Except to express which errors it surfaces (the
value is the log lines emitted). -/
def revokeSelf (revokeResult : Except String Unit) :
    Except String (List String) :=
  match revokeResult with
  | .ok _ => .ok ["Revoking Vault token."]
  | .error e => .ok ["Revoking Vault token.", "Failed to revoke Vault token: " ++ e]

/-- An authentication call issued against an external system by the
resolution chain: a token self-lookup authentication (performTokenAuth)
with the token used, or the Kubernetes role login (performKubernetesAuth). -/
inductive AuthCall
| tokenAuth (token : String)
| k8sLogin
deriving DecidableEq

/-- Outcome of authenticateToVault: an authenticated session (token and
the self-lookup or login secret), a fatal termination with its message, or
a non-fatal error returned to the caller (only the Kubernetes role branch
returns its error). -/
inductive AuthOutcome
| success (token secret : String)
| fatal (msg : String)
| failed (e : String)
deriving DecidableEq

/-- The inputs of authenticateToVault: the lease-registry token read at
startup (leases.AuthTokenLease.Token), the command-line token flag, the
VAULT_TOKEN environment value, the Kubernetes auth role flag, and the
responses of the external collaborators: rest.InClusterConfig, the
clientset construction, the vault-token ConfigMap list (each item is its
Data map as an association list), the self-lookup response per token, and
the Kubernetes role login response (token and secret). -/
structure AuthEnv where
  leaseToken : String
  vaultTokenArg : String
  envVaultToken : String
  k8sAuthRole : String
  inClusterConfig : Except String Unit
  clientsetResult : Except String Unit
  configMapsList : Except String (List (List (String × String)))
  lookupSelf : String → Except String String
  k8sAuth : Except String (String × String)

/-- Embedding of src/cmd/vault.go lines 114..130: performTokenAuth sets the token on a
fresh client and validates it by a self-lookup; any lookup error is
returned. -/
def performTokenAuth (env : AuthEnv) (vaultToken : String) :
    Except String (String × String) :=
  match env.lookupSelf vaultToken with
  | .ok s => .ok (vaultToken, s)
  | .error e => .error e

/-- Embedding of src/cmd/vault.go lines 226..234: the tail of the chain after the
ConfigMap fallback: the Kubernetes role login when a role is configured
(its error is returned, not fatal), else the fatal no-mechanism outcome. -/
def kubernetesRoleStep (env : AuthEnv) : AuthOutcome × List AuthCall :=
  if env.k8sAuthRole ≠ "" then
    match env.k8sAuth with
    | .ok (t, s) => (.success t s, [.k8sLogin])
    | .error e => (.failed e, [.k8sLogin])
  else
    (.fatal "No authentication mechanism specified and VAULT_TOKEN is not set.", [])

/-- Embedding of src/cmd/vault.go lines 137..235: the authentication resolution chain.
Priority: lease-registry token, command-line token, VAULT_TOKEN, the
vault-token ConfigMap (skipped silently on any collaborator error, on an
item count other than one, or on a missing token field), then the
Kubernetes role login, else fatal.  A token branch, once entered, is fatal
on failure.  The second component is the trace of authentication calls
issued. -/
def authenticateToVault (env : AuthEnv) : AuthOutcome × List AuthCall :=
  if env.leaseToken ≠ "" then
    match performTokenAuth env env.leaseToken with
    | .ok (t, s) => (.success t s, [.tokenAuth env.leaseToken])
    | .error e =>
      (.fatal ("Failed to authenticate to vault server with token in lease file: " ++ e),
       [.tokenAuth env.leaseToken])
  else if env.vaultTokenArg ≠ "" then
    match performTokenAuth env env.vaultTokenArg with
    | .ok (t, s) => (.success t s, [.tokenAuth env.vaultTokenArg])
    | .error e =>
      (.fatal ("Failed to authenticate using command line token: " ++ e),
       [.tokenAuth env.vaultTokenArg])
  else if env.envVaultToken ≠ "" then
    match performTokenAuth env env.envVaultToken with
    | .ok (t, s) => (.success t s, [.tokenAuth env.envVaultToken])
    | .error e =>
      (.fatal ("Failed to authenticate using VAULT_TOKEN: " ++ e),
       [.tokenAuth env.envVaultToken])
  else
    match env.inClusterConfig with
    | .error _ => kubernetesRoleStep env
    | .ok _ =>
      match env.clientsetResult with
      | .error _ => kubernetesRoleStep env
      | .ok _ =>
        match env.configMapsList with
        | .error _ => kubernetesRoleStep env
        | .ok items =>
          match items with
          | [item] =>
            match item.lookup "token" with
            | some tok =>
              match performTokenAuth env tok with
              | .ok (t, s) => (.success t s, [.tokenAuth tok])
              | .error e =>
                (.fatal ("Failed to authenticate using token from vault-token ConfigMap: " ++ e),
                 [.tokenAuth tok])
            | none => kubernetesRoleStep env
          | _ => kubernetesRoleStep env

/-- The three ways the ConfigMap fallback collaborators can fail in
src/cmd/vault.go lines 193..207: the in-cluster config cannot be created
(not running inside Kubernetes), the clientset cannot be created, or the
ConfigMap list call errors. -/
def fallbackUnreachable (env : AuthEnv) : Prop :=
  (∃ e, env.inClusterConfig = .error e) ∨
  (env.inClusterConfig = .ok () ∧ ∃ e, env.clientsetResult = .error e) ∨
  (env.inClusterConfig = .ok () ∧ env.clientsetResult = .ok () ∧
    ∃ e, env.configMapsList = .error e)

/-- Concrete environment with all three token sources present at once. -/
def envLeaseW : AuthEnv :=
  { leaseToken := "lease-tok", vaultTokenArg := "arg-tok",
    envVaultToken := "env-tok", k8sAuthRole := "role",
    inClusterConfig := .ok (), clientsetResult := .ok (),
    configMapsList := .ok [[("token", "cm-tok")]],
    lookupSelf := fun t => .ok ("self-" ++ t),
    k8sAuth := .ok ("k8s-tok", "k8s-secret") }

/-- Concrete environment with no token sources and exactly one vault-token
ConfigMap record carrying a token field. -/
def envConfigMapW : AuthEnv :=
  { leaseToken := "", vaultTokenArg := "", envVaultToken := "",
    k8sAuthRole := "", inClusterConfig := .ok (), clientsetResult := .ok (),
    configMapsList := .ok [[("token", "cm-tok")]],
    lookupSelf := fun t => .ok ("self-" ++ t),
    k8sAuth := .error "no role" }

/-- Concrete environment with no token sources, an unreachable fallback
store, and a configured Kubernetes auth role. -/
def envFallbackDownW : AuthEnv :=
  { leaseToken := "", vaultTokenArg := "", envVaultToken := "",
    k8sAuthRole := "example-role",
    inClusterConfig := .error "unable to load in-cluster configuration",
    clientsetResult := .ok (), configMapsList := .ok [],
    lookupSelf := fun _ => .error "nope",
    k8sAuth := .ok ("k8s-tok", "k8s-secret") }

theorem lookup_append_of_none {α β : Type} [BEq α] (l1 l2 : List (α × β)) (k : α)
    (h : l1.lookup k = none) : (l1 ++ l2).lookup k = l2.lookup k := by
  induction l1 with
  | nil => rfl
  | cons p tl ih =>
    obtain ⟨a, b⟩ := p
    simp only [List.lookup, List.cons_append] at h ⊢
    cases hk : k == a with
    | true =>
      rw [hk] at h
      exact Option.noConfusion (show some b = none from h)
    | false =>
      rw [hk] at h
      have h2 : List.lookup k tl = none := h
      show List.lookup k (tl ++ l2) = List.lookup k l2
      exact ih h2

theorem readKVSecretsLoop_append (store : String → ReadResult) (base : String)
    (l1 l2 : List SecretRequest) (acc : List (String × String)) (tr : List String) :
    readKVSecretsLoop store base (l1 ++ l2) acc tr =
      match readKVSecretsLoop store base l1 acc tr with
      | (.ok acc2, tr2) => readKVSecretsLoop store base l2 acc2 tr2
      | (.error e, tr2) => (.error e, tr2) := by
  induction l1 generalizing acc tr with
  | nil => simp [readKVSecretsLoop]
  | cons req rest ih =>
    simp only [List.cons_append, readKVSecretsLoop]
    by_cases hd : (acc.lookup req.key).isSome
    · simp [hd]
    · simp only [hd, if_false, Bool.false_eq_true]
      cases store (resolveSecretPath base req.path) with
      | err e => simp
      | missing =>
        by_cases hm : req.isMissingOk
        · simp [hm, ih]
        · simp [hm]
      | found s => simp [ih]

theorem readKVSecretsLoop_lookup_none (store : String → ReadResult) (base : String)
    (reqs : List SecretRequest) (acc : List (String × String)) (tr : List String)
    (m : List (String × String)) (tr2 : List String) (k : String)
    (h : readKVSecretsLoop store base reqs acc tr = (.ok m, tr2))
    (hacc : acc.lookup k = none) (hreqs : k ∉ reqs.map SecretRequest.key) :
    m.lookup k = none := by
  induction reqs generalizing acc tr with
  | nil =>
    simp only [readKVSecretsLoop, Prod.mk.injEq, Except.ok.injEq] at h
    rw [← h.1]; exact hacc
  | cons req rest ih =>
    simp only [List.map_cons, List.mem_cons, not_or] at hreqs
    obtain ⟨hk, hrest⟩ := hreqs
    simp only [readKVSecretsLoop] at h
    by_cases hd : (acc.lookup req.key).isSome
    · rw [if_pos hd] at h; simp at h
    · rw [if_neg hd] at h
      cases hs : store (resolveSecretPath base req.path) with
      | err e => rw [hs] at h; simp at h
      | missing =>
        rw [hs] at h
        by_cases hm : req.isMissingOk
        · rw [if_pos hm] at h; exact ih _ _ h hacc hrest
        · rw [if_neg hm] at h; simp at h
      | found s =>
        rw [hs] at h
        refine ih _ _ h ?_ hrest
        rw [lookup_append_of_none _ _ _ hacc]
        have hb : (k == req.key) = false := beq_eq_false_iff_ne.mpr hk
        simp [List.lookup, hb]

theorem readKVSecretsLoop_trace (store : String → ReadResult) (base : String)
    (reqs : List SecretRequest) (acc : List (String × String)) (tr : List String) :
    ∃ n, (readKVSecretsLoop store base reqs acc tr).2 =
      tr ++ (reqs.take n).map (fun r => resolveSecretPath base r.path) := by
  induction reqs generalizing acc tr with
  | nil => exact ⟨0, by simp [readKVSecretsLoop]⟩
  | cons req rest ih =>
    simp only [readKVSecretsLoop]
    by_cases hd : (acc.lookup req.key).isSome
    · exact ⟨0, by simp [hd]⟩
    · simp only [hd, if_false, Bool.false_eq_true]
      cases store (resolveSecretPath base req.path) with
      | err e => exact ⟨1, by simp⟩
      | missing =>
        by_cases hm : req.isMissingOk
        · obtain ⟨n, hn⟩ := ih (acc) (tr ++ [resolveSecretPath base req.path])
          exact ⟨n + 1, by simp [hm, hn]⟩
        · exact ⟨1, by simp [hm]⟩
      | found s =>
        obtain ⟨n, hn⟩ := ih (acc ++ [(req.key, s)]) (tr ++ [resolveSecretPath base req.path])
        exact ⟨n + 1, by simp [hn]⟩

/-- Claim C1, counterexample: with two requests sharing the key k and a
store that returns data everywhere, readKVSecrets does fail with the
duplicate-key error, but its call trace shows that the store read for the
first entry with that key was already issued, so the fetch does not fail
before issuing a store read call for either entry with that key. -/
theorem readKVSecrets_duplicate_counterexample :
    (readKVSecrets (fun _ => .found "v") "/srv"
        [⟨"k", "a", false⟩, ⟨"k", "b", false⟩]).1 =
      .error ("Duplicate secret key " ++ "k" ++ ".") ∧
    (readKVSecrets (fun _ => .found "v") "/srv"
        [⟨"k", "a", false⟩, ⟨"k", "b", false⟩]).2 =
      [resolveSecretPath "/srv" "a"] := ⟨rfl, rfl⟩

/-- Claim C1, amended: when the requests before a request r have completed
with mapping acc and read trace tr, and r.key is already bound in acc (an
earlier request with the same key produced data), readKVSecrets fails with
the duplicate-key error before issuing the store read call for r: the call
trace stays tr, so no read is issued for the later duplicate entry (nor for
anything after it), though reads for the earlier requests were issued. -/
theorem readKVSecrets_duplicate_fatal (store : String → ReadResult) (base : String)
    (pre : List SecretRequest) (r : SecretRequest) (rest : List SecretRequest)
    (acc : List (String × String)) (tr : List String)
    (hpre : readKVSecretsLoop store base pre [] [] = (.ok acc, tr))
    (hdup : (acc.lookup r.key).isSome = true) :
    readKVSecrets store base (pre ++ r :: rest) =
      (.error ("Duplicate secret key " ++ r.key ++ "."), tr) := by
  unfold readKVSecrets
  rw [readKVSecretsLoop_append, hpre]
  simp [readKVSecretsLoop, hdup]

theorem readKVSecrets_duplicate_fatal_witness :
    readKVSecretsLoop (fun _ => .found "v") "/srv"
        [⟨"k", "a", false⟩] [] [] = (.ok [("k", "v")], ["/srv/a"]) ∧
    (([("k", "v")] : List (String × String)).lookup "k").isSome = true ∧
    readKVSecrets (fun _ => .found "v") "/srv"
        ([⟨"k", "a", false⟩] ++ (⟨"k", "b", false⟩ : SecretRequest) :: []) =
      (.error ("Duplicate secret key " ++ "k" ++ "."), ["/srv/a"]) :=
  ⟨rfl, by decide,
   readKVSecrets_duplicate_fatal (fun _ => .found "v") "/srv"
     [⟨"k", "a", false⟩] ⟨"k", "b", false⟩ [] [("k", "v")] ["/srv/a"]
     rfl (by decide)⟩

/-- Claim C4: when the requests before a request r have completed with
mapping acc and trace tr, r.key is not yet bound, and the store read at the
effective path of r yields an empty result: if isMissingOk is set the batch
continues with acc unchanged (so a run that completes yields a mapping
without r.key, provided no later request reuses the key), and if
isMissingOk is not set the whole fetch fails fatally with an error outcome
that carries no result mapping. -/
theorem readKVSecrets_missing_policy (store : String → ReadResult) (base : String)
    (pre : List SecretRequest) (r : SecretRequest) (rest : List SecretRequest)
    (acc : List (String × String)) (tr : List String)
    (hpre : readKVSecretsLoop store base pre [] [] = (.ok acc, tr))
    (hnodup : acc.lookup r.key = none)
    (hmiss : store (resolveSecretPath base r.path) = .missing) :
    (r.isMissingOk = true →
      readKVSecrets store base (pre ++ r :: rest) =
        readKVSecretsLoop store base rest acc
          (tr ++ [resolveSecretPath base r.path]) ∧
      (r.key ∉ rest.map SecretRequest.key →
        ∀ m tr2,
          readKVSecretsLoop store base rest acc
              (tr ++ [resolveSecretPath base r.path]) = (.ok m, tr2) →
          m.lookup r.key = none)) ∧
    (r.isMissingOk = false →
      readKVSecrets store base (pre ++ r :: rest) =
        (.error "No response returned fetching secrets.",
         tr ++ [resolveSecretPath base r.path])) := by
  have hstep : readKVSecrets store base (pre ++ r :: rest) =
      (if r.isMissingOk then
        readKVSecretsLoop store base rest acc (tr ++ [resolveSecretPath base r.path])
      else (.error "No response returned fetching secrets.",
            tr ++ [resolveSecretPath base r.path])) := by
    unfold readKVSecrets
    rw [readKVSecretsLoop_append, hpre]
    simp [readKVSecretsLoop, hnodup, hmiss]
  constructor
  · intro hm
    constructor
    · rw [hstep, if_pos hm]
    · intro hk m tr2 hrun
      exact readKVSecretsLoop_lookup_none store base rest acc _ m tr2 r.key hrun hnodup hk
  · intro hm
    rw [hstep, if_neg (by simp [hm])]

theorem readKVSecrets_missing_policy_witness :
    readKVSecretsLoop (fun p => if p = "/srv/a" then .missing else .found "v")
        "/srv" [] [] [] = (.ok [], []) ∧
    (([] : List (String × String)).lookup "k") = none ∧
    (fun p => if p = "/srv/a" then ReadResult.missing else ReadResult.found "v")
        (resolveSecretPath "/srv" "a") = .missing ∧
    ((⟨"k", "a", true⟩ : SecretRequest).isMissingOk = true →
      readKVSecrets (fun p => if p = "/srv/a" then .missing else .found "v") "/srv"
          ([] ++ (⟨"k", "a", true⟩ : SecretRequest) :: [⟨"j", "b", false⟩]) =
        readKVSecretsLoop (fun p => if p = "/srv/a" then .missing else .found "v")
          "/srv" [⟨"j", "b", false⟩] [] ([] ++ [resolveSecretPath "/srv" "a"]) ∧
      ((⟨"k", "a", true⟩ : SecretRequest).key ∉
          ([⟨"j", "b", false⟩] : List SecretRequest).map SecretRequest.key →
        ∀ m tr2,
          readKVSecretsLoop (fun p => if p = "/srv/a" then .missing else .found "v")
              "/srv" [⟨"j", "b", false⟩] [] ([] ++ [resolveSecretPath "/srv" "a"]) =
            (.ok m, tr2) →
          m.lookup (⟨"k", "a", true⟩ : SecretRequest).key = none)) ∧
    ((⟨"k", "a", true⟩ : SecretRequest).isMissingOk = false →
      readKVSecrets (fun p => if p = "/srv/a" then .missing else .found "v") "/srv"
          ([] ++ (⟨"k", "a", true⟩ : SecretRequest) :: [⟨"j", "b", false⟩]) =
        (.error "No response returned fetching secrets.",
         [] ++ [resolveSecretPath "/srv" "a"])) :=
  ⟨rfl, rfl, rfl,
   (readKVSecrets_missing_policy (fun p => if p = "/srv/a" then .missing else .found "v")
     "/srv" [] ⟨"k", "a", true⟩ [⟨"j", "b", false⟩] [] [] rfl rfl rfl).1,
   (readKVSecrets_missing_policy (fun p => if p = "/srv/a" then .missing else .found "v")
     "/srv" [] ⟨"k", "a", true⟩ [⟨"j", "b", false⟩] [] [] rfl rfl rfl).2⟩

/-- Claim C9: when the requests before a request r have completed with
mapping acc and trace tr, the duplicate-key fatal fires exactly when r.key
is bound in acc, which happens exactly when an earlier request with that
key produced a non-empty store result: if it is bound the run stops with no
further store call, and if it is not bound (for example because every
earlier occurrence was omitted under isMissingOk) the later request with
the same key proceeds undetected, its store read is issued, and a found
result is inserted under that key. -/
theorem readKVSecrets_duplicate_needs_insertion (store : String → ReadResult)
    (base : String) (pre : List SecretRequest) (r : SecretRequest)
    (rest : List SecretRequest) (acc : List (String × String)) (tr : List String)
    (hpre : readKVSecretsLoop store base pre [] [] = (.ok acc, tr)) :
    ((acc.lookup r.key).isSome = true →
      readKVSecrets store base (pre ++ r :: rest) =
        (.error ("Duplicate secret key " ++ r.key ++ "."), tr)) ∧
    (acc.lookup r.key = none →
      ∀ s, store (resolveSecretPath base r.path) = .found s →
        readKVSecrets store base (pre ++ r :: rest) =
          readKVSecretsLoop store base rest (acc ++ [(r.key, s)])
            (tr ++ [resolveSecretPath base r.path])) := by
  constructor
  · intro hdup
    unfold readKVSecrets
    rw [readKVSecretsLoop_append, hpre]
    simp [readKVSecretsLoop, hdup]
  · intro hnone s hs
    unfold readKVSecrets
    rw [readKVSecretsLoop_append, hpre]
    simp [readKVSecretsLoop, hnone, hs]

theorem readKVSecrets_duplicate_needs_insertion_witness :
    readKVSecretsLoop (fun p => if p = "/srv/a" then .missing else .found "v")
        "/srv" [⟨"k", "a", true⟩] [] [] = (.ok [], ["/srv/a"]) ∧
    (([] : List (String × String)).lookup "k") = none ∧
    (fun p => if p = "/srv/a" then ReadResult.missing else ReadResult.found "v")
        (resolveSecretPath "/srv" "b") = .found "v" ∧
    readKVSecrets (fun p => if p = "/srv/a" then .missing else .found "v") "/srv"
        ([⟨"k", "a", true⟩] ++ (⟨"k", "b", false⟩ : SecretRequest) :: []) =
      readKVSecretsLoop (fun p => if p = "/srv/a" then .missing else .found "v")
        "/srv" [] ([] ++ [("k", "v")]) (["/srv/a"] ++ [resolveSecretPath "/srv" "b"]) :=
  ⟨rfl, rfl, rfl,
   (readKVSecrets_duplicate_needs_insertion
       (fun p => if p = "/srv/a" then .missing else .found "v") "/srv"
       [⟨"k", "a", true⟩] ⟨"k", "b", false⟩ [] [] ["/srv/a"] rfl).2 rfl "v" rfl⟩

/-- Claim C7: the store read calls issued by readKVSecrets are exactly the
effective paths of a leading portion of the configured requests, in order,
and the effective path of a request is its configured path verbatim when
that path has a leading separator, and the configured path joined under the
configured base otherwise. -/
theorem readKVSecrets_path_resolution (store : String → ReadResult) (base : String)
    (reqs : List SecretRequest) :
    (∃ n, (readKVSecrets store base reqs).2 =
        (reqs.take n).map (fun r => resolveSecretPath base r.path)) ∧
    (∀ p, resolveSecretPath base p =
        if goStringsHasLeading p "/" then p else goFilepathJoin base p) := by
  constructor
  · obtain ⟨n, hn⟩ := readKVSecretsLoop_trace store base reqs [] []
    exact ⟨n, by simpa using hn⟩
  · intro p
    rfl

/-- Claim C3: when a renewal attempt yields an error carrying the
Code: 403 signal, the retry loop classifies it permanent and stops at that
attempt, surfacing ErrPermissionDenied and consuming exactly one attempt
regardless of what responses would follow, even when the elapsed time is
still within the budget; the same holds for renewSelf when its first
attempt yields such an error. -/
theorem renewSelf_permission_denied_stops (e : String)
    (h : checkPermissionDenied e = true) :
    (∀ maxElapsed rest elapsed interval, elapsed ≤ maxElapsed →
      retryLoop maxElapsed (.err e :: rest) elapsed interval =
        (.permanent ErrPermissionDenied, 1)) ∧
    (∀ maxElapsed rest, renewSelf maxElapsed (.err e :: rest) =
        (.permanent ErrPermissionDenied, 1)) := by
  constructor
  · intro maxElapsed rest elapsed interval _
    simp [retryLoop, h]
  · intro maxElapsed rest
    simp [renewSelf, retryLoop, h]

theorem renewSelf_permission_denied_stops_witness :
    checkPermissionDenied "Error making API request. Code: 403." = true ∧
    (100 : Nat) ≤ 100000 ∧
    retryLoop 100000 (.err "Error making API request. Code: 403." :: [.ok, .ok]) 100 500 =
      (.permanent ErrPermissionDenied, 1) ∧
    renewSelf 100000 (.err "Error making API request. Code: 403." :: [.ok, .ok]) =
      (.permanent ErrPermissionDenied, 1) :=
  ⟨by decide, by decide,
   (renewSelf_permission_denied_stops "Error making API request. Code: 403."
     (by decide)).1 100000 [.ok, .ok] 100 500 (by decide),
   (renewSelf_permission_denied_stops "Error making API request. Code: 403."
     (by decide)).2 100000 [.ok, .ok]⟩

/-- Claim C10: checkPermissionDenied holds exactly when the error string
contains the substring Code: 403; an error without that substring, such as
one describing a permission failure in other words, is classified
transient, so with budget remaining the retry loop proceeds to the next
attempt (consuming one more attempt than the rest of the run), while an
error with the substring stops the loop as permanent at once. -/
theorem checkPermissionDenied_classification (e : String)
    (h : goStringsContains e "Code: 403" = false) :
    checkPermissionDenied e = false ∧
    (∀ e2, checkPermissionDenied e2 = goStringsContains e2 "Code: 403") ∧
    (∀ maxElapsed rest elapsed interval, ¬ maxElapsed < elapsed →
      retryLoop maxElapsed (.err e :: rest) elapsed interval =
        ((retryLoop maxElapsed rest (elapsed + interval) (nextInterval interval)).1,
         (retryLoop maxElapsed rest (elapsed + interval) (nextInterval interval)).2 + 1)) ∧
    (∀ e2 maxElapsed rest elapsed interval, checkPermissionDenied e2 = true →
      retryLoop maxElapsed (.err e2 :: rest) elapsed interval =
        (.permanent ErrPermissionDenied, 1)) := by
  refine ⟨h, fun e2 => rfl, ?_, ?_⟩
  · intro maxElapsed rest elapsed interval hbudget
    have hc : checkPermissionDenied e = false := h
    simp [retryLoop, hc, hbudget]
  · intro e2 maxElapsed rest elapsed interval h2
    simp [retryLoop, h2]

theorem checkPermissionDenied_classification_witness :
    goStringsContains "permission denied" "Code: 403" = false ∧
    checkPermissionDenied "permission denied" = false ∧
    ¬ (100000 : Nat) < 0 ∧
    retryLoop 100000 (.err "permission denied" :: [.ok]) 0 500 =
      ((retryLoop 100000 [.ok] (0 + 500) (nextInterval 500)).1,
       (retryLoop 100000 [.ok] (0 + 500) (nextInterval 500)).2 + 1) :=
  ⟨by decide,
   (checkPermissionDenied_classification "permission denied" (by decide)).1,
   by decide,
   (checkPermissionDenied_classification "permission denied" (by decide)).2.2.1
     100000 [.ok] 0 500 (by decide)⟩

/-- Claim C8: revokeSelf never surfaces a failure: for every outcome of the
revoke call it completes with an ok result, and when the revoke call errors
the error appears only in the emitted log lines. -/
theorem revokeSelf_never_fatal :
    (∀ res, ∃ logs, revokeSelf res = .ok logs) ∧
    (∀ e, revokeSelf (.error e) =
      .ok ["Revoking Vault token.", "Failed to revoke Vault token: " ++ e]) := by
  constructor
  · intro res
    cases res with
    | ok u => exact ⟨_, rfl⟩
    | error e => exact ⟨_, rfl⟩
  · intro e
    rfl

/-- Claim C2: when the lease registry holds a non-empty auth token, the
resolution chain issues exactly one authentication call, a token self-
lookup authentication with that token, regardless of any command-line or
environment token also present; a successful lookup yields a session on
that token and a failed lookup is fatal for the whole resolution. -/
theorem authenticateToVault_lease_priority (env : AuthEnv)
    (h : env.leaseToken ≠ "") :
    (authenticateToVault env).2 = [.tokenAuth env.leaseToken] ∧
    (∀ s, env.lookupSelf env.leaseToken = .ok s →
      (authenticateToVault env).1 = .success env.leaseToken s) ∧
    (∀ e, env.lookupSelf env.leaseToken = .error e →
      (authenticateToVault env).1 =
        .fatal ("Failed to authenticate to vault server with token in lease file: " ++ e)) := by
  refine ⟨?_, ?_, ?_⟩
  · unfold authenticateToVault performTokenAuth
    rw [if_pos h]
    cases env.lookupSelf env.leaseToken with
    | ok s => rfl
    | error e => rfl
  · intro s hs
    unfold authenticateToVault performTokenAuth
    rw [if_pos h, hs]
  · intro e he
    unfold authenticateToVault performTokenAuth
    rw [if_pos h, he]

theorem authenticateToVault_lease_priority_witness :
    envLeaseW.leaseToken ≠ "" ∧
    envLeaseW.vaultTokenArg ≠ "" ∧
    envLeaseW.envVaultToken ≠ "" ∧
    (authenticateToVault envLeaseW).2 = [.tokenAuth envLeaseW.leaseToken] ∧
    (authenticateToVault envLeaseW).1 =
      .success envLeaseW.leaseToken ("self-" ++ "lease-tok") :=
  ⟨by decide, by decide, by decide,
   (authenticateToVault_lease_priority envLeaseW (by decide)).1,
   (authenticateToVault_lease_priority envLeaseW (by decide)).2.1
     ("self-" ++ "lease-tok") rfl⟩

/-- Claim C5: with no registry lease token, no command-line token and no
environment token, when the in-cluster collaborators respond and the
ConfigMap list holds exactly one record whose data has a token field, the
resolution chain issues exactly one authentication call, a token self-
lookup authentication with that token, and a successful lookup yields a
session on that token. -/
theorem authenticateToVault_configmap_token (env : AuthEnv)
    (h1 : env.leaseToken = "") (h2 : env.vaultTokenArg = "")
    (h3 : env.envVaultToken = "") (h4 : env.inClusterConfig = .ok ())
    (h5 : env.clientsetResult = .ok ())
    (item : List (String × String)) (tok : String)
    (h6 : env.configMapsList = .ok [item])
    (h7 : item.lookup "token" = some tok) :
    (authenticateToVault env).2 = [.tokenAuth tok] ∧
    (∀ s, env.lookupSelf tok = .ok s →
      (authenticateToVault env).1 = .success tok s) := by
  have hchain : authenticateToVault env =
      (match performTokenAuth env tok with
       | .ok (t, s) => (.success t s, [.tokenAuth tok])
       | .error e =>
         (.fatal ("Failed to authenticate using token from vault-token ConfigMap: " ++ e),
          [.tokenAuth tok])) := by
    unfold authenticateToVault
    rw [if_neg (by simp [h1]), if_neg (by simp [h2]), if_neg (by simp [h3]),
        h4, h5, h6]
    simp only [h7]
  constructor
  · rw [hchain]
    unfold performTokenAuth
    cases env.lookupSelf tok with
    | ok s => rfl
    | error e => rfl
  · intro s hs
    rw [hchain]
    unfold performTokenAuth
    rw [hs]

theorem authenticateToVault_configmap_token_witness :
    envConfigMapW.leaseToken = "" ∧
    envConfigMapW.inClusterConfig = .ok () ∧
    envConfigMapW.configMapsList = .ok [[("token", "cm-tok")]] ∧
    ([("token", "cm-tok")] : List (String × String)).lookup "token" = some "cm-tok" ∧
    (authenticateToVault envConfigMapW).2 = [.tokenAuth "cm-tok"] ∧
    (authenticateToVault envConfigMapW).1 = .success "cm-tok" ("self-" ++ "cm-tok") :=
  ⟨rfl, rfl, rfl, by decide,
   (authenticateToVault_configmap_token envConfigMapW rfl rfl rfl rfl rfl
     [("token", "cm-tok")] "cm-tok" rfl (by decide)).1,
   (authenticateToVault_configmap_token envConfigMapW rfl rfl rfl rfl rfl
     [("token", "cm-tok")] "cm-tok" rfl (by decide)).2
     ("self-" ++ "cm-tok") rfl⟩

/-- Claim C6: with no token sources, when any of the fallback collaborators
fails (no in-cluster config, no clientset, or a failing ConfigMap list
call), the resolution does not fail there: it reduces to the tail of the
chain, and with a Kubernetes auth role configured the only authentication
call issued is the role login. -/
theorem authenticateToVault_fallback_skip (env : AuthEnv)
    (h1 : env.leaseToken = "") (h2 : env.vaultTokenArg = "")
    (h3 : env.envVaultToken = "") (hf : fallbackUnreachable env) :
    authenticateToVault env = kubernetesRoleStep env ∧
    (env.k8sAuthRole ≠ "" → (authenticateToVault env).2 = [.k8sLogin]) := by
  have hmain : authenticateToVault env = kubernetesRoleStep env := by
    unfold authenticateToVault
    rw [if_neg (by simp [h1]), if_neg (by simp [h2]), if_neg (by simp [h3])]
    rcases hf with ⟨e, he⟩ | ⟨hic, e, he⟩ | ⟨hic, hcs, e, he⟩
    · rw [he]
    · rw [hic, he]
    · rw [hic, hcs, he]
  refine ⟨hmain, fun hrole => ?_⟩
  rw [hmain]
  unfold kubernetesRoleStep
  rw [if_pos hrole]
  cases env.k8sAuth with
  | ok ts => obtain ⟨t1, s1⟩ := ts; rfl
  | error e => rfl

theorem authenticateToVault_fallback_skip_witness :
    envFallbackDownW.leaseToken = "" ∧
    fallbackUnreachable envFallbackDownW ∧
    envFallbackDownW.k8sAuthRole ≠ "" ∧
    authenticateToVault envFallbackDownW = kubernetesRoleStep envFallbackDownW ∧
    (authenticateToVault envFallbackDownW).2 = [.k8sLogin] :=
  ⟨rfl, Or.inl ⟨"unable to load in-cluster configuration", rfl⟩, by decide,
   (authenticateToVault_fallback_skip envFallbackDownW rfl rfl rfl
     (Or.inl ⟨"unable to load in-cluster configuration", rfl⟩)).1,
   (authenticateToVault_fallback_skip envFallbackDownW rfl rfl rfl
     (Or.inl ⟨"unable to load in-cluster configuration", rfl⟩)).2 (by decide)⟩
